import Mathlib

/-!
Shallow embedding of the product-hunt-mailer pipeline (scraper, summarizer,
mailer, driver) and proofs of its specified properties.
-/

namespace PH

/-- Mirrors `Product` of src/scraper.py. -/
structure Product where
  name : String
  tagline : String
  url : String
  image_url : String
  topics : List String
  comments_count : Nat
deriving Repr, DecidableEq

/-- Mirrors `ProductSummary` of src/summarizer.py. -/
structure ProductSummary where
  name : String
  original_tagline : String
  summary : String
  why_it_matters : String
  url : String
  image_url : String
  topics : List String
  comments_count : Nat
deriving Repr, DecidableEq

/-- Mirrors `DigestContent` of src/summarizer.py. -/
structure DigestContent where
  intro : String
  products : List ProductSummary
deriving Repr, DecidableEq

/-- One entry of the parsed JSON array `result["products"]`; each field is
optional because the code reads it with `dict.get` and a default. -/
structure SummaryEntry where
  summary : Option String
  why_it_matters : Option String
deriving Repr, DecidableEq

/-- The parsed JSON body of the model response. `products` stands for
`result.get("products", [])` (missing key = empty list) and `intro` for the
optional `result["intro"]`. -/
structure GeminiResponse where
  products : List SummaryEntry
  intro : Option String
deriving Repr, DecidableEq

/-- Default `Product` used only to read lists at an in-range index. -/
def pDflt : Product :=
  { name := "", tagline := "", url := "", image_url := "", topics := [], comments_count := 0 }

/-- Default `ProductSummary` used only to read lists at an in-range index. -/
def psDflt : ProductSummary :=
  { name := "", original_tagline := "", summary := "", why_it_matters := "",
    url := "", image_url := "", topics := [], comments_count := 0 }

/-- Default `SummaryEntry`, the `{}` the code substitutes when the response
array is shorter than the input list. -/
def seDflt : SummaryEntry := { summary := none, why_it_matters := none }

/-- One iteration of the loop at src/summarizer.py lines 119-132:
`summary_data = result.get("products", [])[i] if i < len(...) else {}`,
then the `ProductSummary(...)` constructor call. -/
def buildSummary (r : GeminiResponse) (i : Nat) (p : Product) : ProductSummary :=
  let summary_data := r.products.getD i seDflt
  { name := p.name
    original_tagline := p.tagline
    summary := summary_data.summary.getD p.tagline
    why_it_matters := summary_data.why_it_matters.getD ""
    url := p.url
    image_url := p.image_url
    topics := p.topics
    comments_count := p.comments_count }

/-- The `for i, product in enumerate(products)` loop of
`GeminiSummarizer.summarize_products`, with `i` the running index. -/
def buildSummaries (r : GeminiResponse) : Nat → List Product → List ProductSummary
  | _, [] => []
  | i, p :: ps => buildSummary r i p :: buildSummaries r (i + 1) ps

/-- Mirrors `GeminiSummarizer._create_fallback_digest` applied to one product. -/
def fallbackSummary (p : Product) : ProductSummary :=
  { name := p.name
    original_tagline := p.tagline
    summary := p.tagline
    why_it_matters := "Check it out on Product Hunt!"
    url := p.url
    image_url := p.image_url
    topics := p.topics
    comments_count := p.comments_count }

/-- Mirrors `GeminiSummarizer._create_fallback_digest` (src/summarizer.py
lines 138-156). -/
def createFallbackDigest (products : List Product) : DigestContent :=
  { intro := "Here are today's top Product Hunt launches!"
    products := products.map fallbackSummary }

/-- Mirrors `GeminiSummarizer.summarize_products` (src/summarizer.py lines
85-136). The outcome of the single `self.model.generate_content(prompt)` call
followed by `json.loads(response.text)` is abstracted as `modelResult`:
`.error e` when the request itself raises (the call sits outside the `try`
block, so the exception propagates), `.ok none` when the request succeeds but
the body is not valid JSON (`json.JSONDecodeError` is caught and the fallback
digest returned), and `.ok (some r)` when the body parses to `r`. The empty
input check precedes the request, so `modelResult` is never consulted for an
empty list. -/
def summarize_products (products : List Product)
    (modelResult : Except String (Option GeminiResponse)) :
    Except String DigestContent :=
  if products.isEmpty then
    Except.ok { intro := "No products found today.", products := [] }
  else
    match modelResult with
    | Except.error e => Except.error e
    | Except.ok none => Except.ok (createFallbackDigest products)
    | Except.ok (some r) =>
        Except.ok
          { intro := r.intro.getD "Here are today's top Product Hunt launches!"
            products := buildSummaries r 0 products }

/-- Mirrors `Recipient` of src/mailer.py. -/
structure Recipient where
  name : String
  email : String
deriving Repr, DecidableEq

/-- One result dict appended by `EmailSender.send_digest`: either
`{"recipient", "status": "sent", "id"}` (the id is the optional message id
read off the provider response) or `{"recipient", "status": "failed",
"error"}`. -/
inductive SendResult where
  | sent (recipient : String) (id : Option String)
  | failed (recipient : String) (error : String)
deriving Repr, DecidableEq

/-- Whether a result dict has `status == "sent"`. -/
def SendResult.isSent : SendResult → Bool
  | SendResult.sent _ _ => true
  | SendResult.failed _ _ => false

/-- The dict passed to `resend.Emails.send` (src/mailer.py lines 173-179);
`toField` stands for its "to" key. -/
structure EmailPayload where
  from_email : String
  toField : List String
  subject : String
  html : String
  text : String
deriving Repr, DecidableEq

/-- The subject construction at src/mailer.py line 164:
`subject = f"{subject_prefix} - {today}"`. -/
def subjectLine (subjectPfx today : String) : String :=
  subjectPfx ++ " - " ++ today

/-- Left-pads a decimal rendering to two digits, as strftime `%m` / `%d` do. -/
def pad2 (n : Nat) : String :=
  if n < 10 then "0" ++ toString n else toString n

/-- Left-pads a decimal rendering to four digits, as strftime `%Y` does. -/
def pad4 (n : Nat) : String :=
  if n < 10 then "000" ++ toString n
  else if n < 100 then "00" ++ toString n
  else if n < 1000 then "0" ++ toString n
  else toString n

/-- Models `datetime.now().strftime("%Y-%m-%d")` applied to a given calendar date. -/
def formatYMD (y m d : Nat) : String :=
  pad4 y ++ "-" ++ pad2 m ++ "-" ++ pad2 d

/-- Builds the payload sent for one recipient inside the loop of
`EmailSender.send_digest`. -/
def mailPayload (from_email subject html_content text_content : String)
    (rcp : Recipient) : EmailPayload :=
  { from_email := from_email
    toField := [rcp.email]
    subject := subject
    html := html_content
    text := text_content }

/-- Mirrors `EmailSender.send_digest` (src/mailer.py lines 155-194). The
provider call `resend.Emails.send(...)` is abstracted as `deliver`: `.ok id`
when the call returns (with the optional message id read off the response),
`.error e` when it raises with message `e` (the `except` branch). The two
renderers `generate_html_email` / `generate_text_email` are pure string
builders over the digest and are passed in as `htmlOf` / `textOf`; `today` is
the strftime-formatted send date. -/
def send_digest (deliver : EmailPayload → Except String (Option String))
    (htmlOf textOf : DigestContent → String) (digest : DigestContent)
    (recipients : List Recipient) (from_email : String) (subjectPfx : String)
    (today : String) : List SendResult :=
  let subject := subjectLine subjectPfx today
  let html_content := htmlOf digest
  let text_content := textOf digest
  recipients.map (fun rcp =>
    match deliver (mailPayload from_email subject html_content text_content rcp) with
    | Except.ok id => SendResult.sent rcp.email id
    | Except.error e => SendResult.failed rcp.email e)

/-! ## Scraper (src/scraper.py) -/

/-- An `<a>` element: its stripped text and its `href` attribute
(`get("href", "")`, so a missing attribute reads as `""`). -/
structure Anchor where
  text : String
  href : String
deriving Repr, DecidableEq

/-- The span matching `data-test=post-name-*`, holding its first `<a>`
descendant when one exists. -/
structure NameSpan where
  link : Option Anchor
deriving Repr, DecidableEq

/-- An `<img>` element: its `srcset` and `src` attributes, each read with a
`""` default. -/
structure Img where
  srcset : String
  src : String
deriving Repr, DecidableEq

/-- One listing section matching the `data-test="post-item-<n>"` marker,
reduced to the queries `_parse_product_section` performs on it: the optional
name span, the stripped text of the optional tagline span (class containing
`text-secondary`), the first `<img>`, the stripped texts of the `<a>` links
whose href matches `^/topics/` in document order, and for each `<button>` in
document order the stripped text of its first `<p>` when it has one. -/
structure ListingSection where
  nameSpan : Option NameSpan
  taglineSpan : Option String
  img : Option Img
  topicLinks : List String
  buttonTexts : List (Option String)
deriving Repr, DecidableEq

/-- Models `srcset.split(",")[0].strip().split(" ")[0]` (src/scraper.py line 86). -/
def firstSrcsetUrl (srcset : String) : String :=
  ((((srcset.splitOn ",").headD "").trim).splitOn " ").headD ""

/-- The comment-count scan of src/scraper.py lines 100-109: the first button
whose first `<p>` text `isdigit()` sets the count; otherwise 0. -/
def firstDigitButton : List (Option String) → Nat
  | [] => 0
  | none :: rest => firstDigitButton rest
  | some t :: rest =>
    match t.toNat? with
    | some n => n
    | none => firstDigitButton rest

/-- Mirrors `ProductHuntScraper._parse_product_section` (src/scraper.py lines
58-122): `None` when the name span or its anchor is missing, otherwise the
extracted `Product`. Every extraction step below is total, matching the fact
that the enclosing `try` never fires on these queries. -/
def parse_product_section (base_url : String) (s : ListingSection) :
    Option Product :=
  match s.nameSpan with
  | none => none
  | some ns =>
    match ns.link with
    | none => none
    | some a =>
      let name := a.text
      let product_path := a.href
      let url := if product_path.startsWith "/" then base_url ++ product_path
                 else product_path
      let tagline := s.taglineSpan.getD ""
      let image_url :=
        match s.img with
        | none => ""
        | some im => if im.srcset ≠ "" then firstSrcsetUrl im.srcset else im.src
      let topics := s.topicLinks.filter (fun t => t ≠ "")
      let comments_count := firstDigitButton s.buttonTexts
      some { name := name, tagline := tagline, url := url,
             image_url := image_url, topics := topics,
             comments_count := comments_count }

/-- Mirrors `ProductHuntScraper.parse_products` (src/scraper.py lines 41-56):
`sections` is the list, in document order, of the sections matched by
`find_all` on the `post-item-<n>` pattern; the loop walks
`product_sections[:limit]` and keeps the sections that parse. -/
def parse_products (base_url : String) (sections : List ListingSection)
    (limit : Nat) : List Product :=
  (sections.take limit).filterMap (parse_product_section base_url)

/-! ## Driver (src/main.py) -/

/-- The configuration values `main` extracts from the YAML dict;
`recipients_config` keeps the raw entries (email may be empty) so that the
`if r.get("email")` filter of line 59 is part of the model. -/
structure Config where
  product_count : Nat
  base_url : String
  from_email : String
  subjectPfx : String
  model_name : String
  recipients_config : List Recipient
deriving Repr, DecidableEq

/-- The outcomes of the effectful calls `main` performs, so that `main`
itself is a pure function of them: the config load (line 38, `.error` for a
missing file), the fetch (line 74), the model call (as in
`summarize_products`; an `.error` also covers the missing-GEMINI_API_KEY
`ValueError`, which the same `try` block catches), the `EmailSender`
construction (`.error` when RESEND_API_KEY is absent), the per-payload
delivery call, the two renderers, and the strftime date. -/
structure Env where
  configResult : Except String Config
  fetchResult : Except String (List Product)
  modelResult : Except String (Option GeminiResponse)
  mailerInit : Except String Unit
  deliver : EmailPayload → Except String (Option String)
  htmlOf : DigestContent → String
  textOf : DigestContent → String
  today : String

/-- The recipients parsed at src/main.py lines 56-60: raw entries with a
truthy (non-empty) email. -/
def mainRecipients (cfg : Config) : List Recipient :=
  cfg.recipients_config.filter (fun r => r.email ≠ "")

/-- The result list `main` receives back from `send_digest` on the success
path. -/
def mainResults (env : Env) (cfg : Config) (digest : DigestContent) :
    List SendResult :=
  send_digest env.deliver env.htmlOf env.textOf digest (mainRecipients cfg)
    cfg.from_email cfg.subjectPfx env.today

/-- Mirrors `main` (src/main.py lines 25-120) as a function from the stage
outcomes to the exit status. Each `try/except ... return 1` becomes a match
on the corresponding `Except`; `if not products: return 0` is the empty-fetch
early exit; the tail computes `successful`, `failed` and
`0 if failed == 0 else 1`. -/
def main (env : Env) : Nat :=
  match env.configResult with
  | Except.error _ => 1
  | Except.ok cfg =>
    if (mainRecipients cfg).isEmpty then 1
    else
      match env.fetchResult with
      | Except.error _ => 1
      | Except.ok products =>
        if products.isEmpty then 0
        else
          match summarize_products products env.modelResult with
          | Except.error _ => 1
          | Except.ok digest =>
            match env.mailerInit with
            | Except.error _ => 1
            | Except.ok _ =>
              let results := mainResults env cfg digest
              let successful := (results.filter SendResult.isSent).length
              let failed := results.length - successful
              if failed = 0 then 0 else 1

/-! ## Helper lemmas -/

deriving instance DecidableEq for Except

/-- The summaries list built by the enumerate loop has one entry per input
product. -/
theorem buildSummaries_length (r : GeminiResponse) :
    ∀ (i : Nat) (ps : List Product), (buildSummaries r i ps).length = ps.length
  | _, [] => rfl
  | i, _ :: ps => by
    simp [buildSummaries, buildSummaries_length r (i + 1) ps]

/-- The j-th entry built by the enumerate loop started at index i is
`buildSummary` applied to index `i + j` and the j-th product. -/
theorem buildSummaries_getD (r : GeminiResponse) :
    ∀ (ps : List Product) (i j : Nat), j < ps.length →
      (buildSummaries r i ps).getD j psDflt =
        buildSummary r (i + j) (ps.getD j pDflt)
  | [], _, j, h => absurd h (by simp)
  | p :: ps, i, 0, _ => by simp [buildSummaries]
  | p :: ps, i, j + 1, h => by
    have ih := buildSummaries_getD r ps (i + 1) j (by simpa using h)
    simp only [buildSummaries, List.getD_cons_succ, ih]
    congr 1
    omega

/-- Reading a mapped list at an in-range index maps the entry read from the
original list, whatever the two defaults. -/
theorem getD_map_of_lt {α β : Type} (f : α → β) (d : β) (d' : α) :
    ∀ (l : List α) (i : Nat), i < l.length →
      (l.map f).getD i d = f (l.getD i d')
  | [], i, h => absurd h (by simp)
  | a :: l, 0, _ => by simp
  | a :: l, i + 1, h => by
    simp only [List.map_cons, List.getD_cons_succ]
    exact getD_map_of_lt f d d' l i (by simpa using h)

/-- When a filterMap hits no `none`, it is the corresponding map. -/
theorem filterMap_map_some {α β : Type} (f : α → Option β) :
    ∀ (l : List α), (∀ s ∈ l, (f s).isSome) →
      (l.filterMap f).map some = l.map f
  | [], _ => rfl
  | a :: l, h => by
    obtain ⟨v, hv⟩ := Option.isSome_iff_exists.mp (h a (by simp))
    have ih := filterMap_map_some f l (fun s hs => h s (by simp [hs]))
    simp [List.filterMap_cons, hv, ih]

/-- A filter keeps the full length exactly when every entry satisfies the
predicate. -/
theorem filter_length_eq_iff {α : Type} (p : α → Bool) :
    ∀ (l : List α), ((l.filter p).length = l.length ↔ ∀ a ∈ l, p a = true)
  | [] => by simp
  | a :: l => by
    cases hpa : p a with
    | true =>
      have ih := filter_length_eq_iff p l
      simp [List.filter_cons, hpa, ih]
    | false =>
      simp only [List.filter_cons, hpa, if_neg, Bool.false_eq_true,
        ite_false, List.length_cons, List.mem_cons]
      constructor
      · intro h
        have := List.length_filter_le p l
        omega
      · intro h
        exact absurd (h a (Or.inl rfl)) (by simp [hpa])

/-- `failed == 0` in the tail of `main` says exactly that every send result
has status "sent". -/
theorem failed_zero_iff (results : List SendResult) :
    (results.length - (results.filter SendResult.isSent).length = 0) ↔
      ∀ res ∈ results, res.isSent = true := by
  rw [Nat.sub_eq_zero_iff_le]
  constructor
  · intro h
    exact (filter_length_eq_iff SendResult.isSent results).mp
      (Nat.le_antisymm (List.length_filter_le _ _) h)
  · intro h
    rw [(filter_length_eq_iff SendResult.isSent results).mpr h]

/-! ## Concrete fixtures -/

/-- A concrete product used in witnesses. -/
def prodA : Product :=
  { name := "Alpha", tagline := "alpha tagline",
    url := "https://www.producthunt.com/posts/alpha",
    image_url := "https://img.example/alpha.png", topics := ["AI"],
    comments_count := 7 }

/-- A second concrete product used in witnesses. -/
def prodB : Product :=
  { name := "Beta", tagline := "beta tagline",
    url := "https://www.producthunt.com/posts/beta", image_url := "",
    topics := [], comments_count := 0 }

/-- A parsed model response with a single entry, one short of two inputs. -/
def respOne : GeminiResponse :=
  { products := [{ summary := some "model summary for Alpha",
                   why_it_matters := some "it matters" }],
    intro := some "Intro!" }

/-- A concrete configuration used in driver fixtures. -/
def cfgEx : Config :=
  { product_count := 5, base_url := "https://www.producthunt.com",
    from_email := "Product Hunt Digest <digest@example.com>",
    subjectPfx := "🚀 Product Hunt Daily",
    model_name := "gemini-3-flash-preview",
    recipients_config := [{ name := "Ada", email := "ada@example.com" },
                          { name := "Ben", email := "ben@example.com" }] }

/-- Driver environment in which every stage would succeed but the model
request itself raises with message "boom". -/
def envRequestFailure : Env :=
  { configResult := Except.ok cfgEx
    fetchResult := Except.ok [prodA]
    modelResult := Except.error "boom"
    mailerInit := Except.ok ()
    deliver := fun _ => Except.ok (some "msg-1")
    htmlOf := fun _ => ""
    textOf := fun _ => ""
    today := "2024-05-01" }

/-! ## Summarizer claims -/

/-- C7: on the empty product list the Summarizer returns intro "No products
found today." and an empty products list. The result is the same for every
outcome of the model call because the empty-input check precedes the request,
so no request to the model endpoint is issued. -/
theorem summarizer_empty_input
    (modelResult : Except String (Option GeminiResponse)) :
    summarize_products [] modelResult =
      Except.ok { intro := "No products found today.", products := [] } := rfl

/-- C6: for every non-empty input, when the model response body is not valid
JSON the Summarizer returns a digest whose intro is the fixed fallback string
and in which each ProductSummary has summary equal to the corresponding
original tagline of the corresponding input product. -/
theorem summarizer_invalid_json_fallback (products : List Product)
    (hne : products ≠ []) :
    ∃ digest,
      summarize_products products (Except.ok none) = Except.ok digest ∧
      digest.intro = "Here are today's top Product Hunt launches!" ∧
      digest.products.length = products.length ∧
      ∀ i, i < products.length →
        (digest.products.getD i psDflt).summary =
          (products.getD i pDflt).tagline := by
  have hpe : products.isEmpty = false := by
    cases products with
    | nil => exact absurd rfl hne
    | cons a l => rfl
  refine ⟨createFallbackDigest products, ?_, rfl,
    by simp [createFallbackDigest], ?_⟩
  · simp [summarize_products, hpe]
  · intro i hi
    unfold createFallbackDigest
    simp only
    rw [getD_map_of_lt fallbackSummary psDflt pDflt products i hi]
    rfl

/-- C6 witness: the fallback applied to the concrete two-product input. -/
theorem summarizer_invalid_json_fallback_witness :
    ([prodA, prodB] ≠ ([] : List Product)) ∧
    ∃ digest,
      summarize_products [prodA, prodB] (Except.ok none) = Except.ok digest ∧
      digest.intro = "Here are today's top Product Hunt launches!" ∧
      digest.products.length = [prodA, prodB].length ∧
      ∀ i, i < [prodA, prodB].length →
        (digest.products.getD i psDflt).summary =
          ([prodA, prodB].getD i pDflt).tagline :=
  ⟨by decide, summarizer_invalid_json_fallback [prodA, prodB] (by decide)⟩

/-- C1: for every non-empty input and every parsed model response, the
digest has exactly one ProductSummary per input product, paired by position
(the i-th output carries the name and tagline of the i-th input product);
and at every index at or beyond the length of the response array, the
summary equals the tagline of that input product and why_it_matters equals
the empty string. -/
theorem summarizer_pads_short_response (products : List Product)
    (r : GeminiResponse) (hne : products ≠ []) :
    ∃ digest,
      summarize_products products (Except.ok (some r)) = Except.ok digest ∧
      digest.products.length = products.length ∧
      (∀ i, i < products.length →
        (digest.products.getD i psDflt).name = (products.getD i pDflt).name ∧
        (digest.products.getD i psDflt).original_tagline =
          (products.getD i pDflt).tagline) ∧
      ∀ i, i < products.length → r.products.length ≤ i →
        (digest.products.getD i psDflt).summary =
          (products.getD i pDflt).tagline ∧
        (digest.products.getD i psDflt).why_it_matters = "" := by
  have hpe : products.isEmpty = false := by
    cases products with
    | nil => exact absurd rfl hne
    | cons a l => rfl
  refine ⟨{ intro := r.intro.getD "Here are today's top Product Hunt launches!",
            products := buildSummaries r 0 products },
    by simp [summarize_products, hpe], buildSummaries_length r 0 products,
    ?_, ?_⟩
  · intro i hi
    simp only
    rw [buildSummaries_getD r products 0 i hi]
    exact ⟨rfl, rfl⟩
  · intro i hi hlen
    simp only
    rw [buildSummaries_getD r products 0 i hi]
    have hout : r.products.getD (0 + i) seDflt = seDflt :=
      List.getD_eq_default r.products seDflt (by omega)
    have h1 : (buildSummary r (0 + i) (products.getD i pDflt)).summary =
        (r.products.getD (0 + i) seDflt).summary.getD
          (products.getD i pDflt).tagline := rfl
    have h2 : (buildSummary r (0 + i) (products.getD i pDflt)).why_it_matters =
        (r.products.getD (0 + i) seDflt).why_it_matters.getD "" := rfl
    rw [h1, h2, hout]
    exact ⟨rfl, rfl⟩

/-- C1 witness: two concrete inputs against a one-entry response; index 1 is
beyond the response array. -/
theorem summarizer_pads_short_response_witness :
    ([prodA, prodB] ≠ ([] : List Product)) ∧
    ∃ digest,
      summarize_products [prodA, prodB] (Except.ok (some respOne)) =
        Except.ok digest ∧
      digest.products.length = [prodA, prodB].length ∧
      (∀ i, i < [prodA, prodB].length →
        (digest.products.getD i psDflt).name =
          ([prodA, prodB].getD i pDflt).name ∧
        (digest.products.getD i psDflt).original_tagline =
          ([prodA, prodB].getD i pDflt).tagline) ∧
      ∀ i, i < [prodA, prodB].length → respOne.products.length ≤ i →
        (digest.products.getD i psDflt).summary =
          ([prodA, prodB].getD i pDflt).tagline ∧
        (digest.products.getD i psDflt).why_it_matters = "" :=
  ⟨by decide, summarizer_pads_short_response [prodA, prodB] respOne (by decide)⟩

/-- C10: whenever the Summarizer returns a digest (parsed path, fallback
path, or empty input), the i-th ProductSummary copies the i-th input
fields of that product unchanged: name (never the name field of the model
response), original tagline, url, image url, topics and comment count. -/
theorem summarizer_copies_product_fields (products : List Product)
    (modelResult : Except String (Option GeminiResponse))
    (digest : DigestContent)
    (hok : summarize_products products modelResult = Except.ok digest) :
    digest.products.length = products.length ∧
    ∀ i, i < products.length →
      (digest.products.getD i psDflt).name = (products.getD i pDflt).name ∧
      (digest.products.getD i psDflt).original_tagline =
        (products.getD i pDflt).tagline ∧
      (digest.products.getD i psDflt).url = (products.getD i pDflt).url ∧
      (digest.products.getD i psDflt).image_url =
        (products.getD i pDflt).image_url ∧
      (digest.products.getD i psDflt).topics = (products.getD i pDflt).topics ∧
      (digest.products.getD i psDflt).comments_count =
        (products.getD i pDflt).comments_count := by
  by_cases hemp : products = []
  · subst hemp
    have hd : digest = { intro := "No products found today.", products := [] } := by
      have := hok.symm.trans (summarizer_empty_input modelResult)
      exact (Except.ok.injEq _ _).mp this
    subst hd
    simp
  · have hpe : products.isEmpty = false := by
      cases products with
      | nil => exact absurd rfl hemp
      | cons a l => rfl
    cases modelResult with
    | error e =>
      exfalso
      simp [summarize_products, hpe] at hok
    | ok parsed =>
      cases parsed with
      | none =>
        have hd : digest = createFallbackDigest products := by
          simp [summarize_products, hpe] at hok
          exact hok.symm
        subst hd
        refine ⟨by simp [createFallbackDigest], ?_⟩
        intro i hi
        unfold createFallbackDigest
        simp only
        rw [getD_map_of_lt fallbackSummary psDflt pDflt products i hi]
        exact ⟨rfl, rfl, rfl, rfl, rfl, rfl⟩
      | some r =>
        have hd : digest =
            { intro := r.intro.getD "Here are today's top Product Hunt launches!",
              products := buildSummaries r 0 products } := by
          simp [summarize_products, hpe] at hok
          exact hok.symm
        subst hd
        refine ⟨buildSummaries_length r 0 products, ?_⟩
        intro i hi
        simp only
        rw [buildSummaries_getD r products 0 i hi]
        exact ⟨rfl, rfl, rfl, rfl, rfl, rfl⟩

/-- C10 witness: the fallback path at the concrete two-product input. -/
theorem summarizer_copies_product_fields_witness :
    (summarize_products [prodA, prodB] (Except.ok none) =
      Except.ok (createFallbackDigest [prodA, prodB])) ∧
    ((createFallbackDigest [prodA, prodB]).products.length =
        [prodA, prodB].length ∧
      ∀ i, i < [prodA, prodB].length →
        ((createFallbackDigest [prodA, prodB]).products.getD i psDflt).name =
          ([prodA, prodB].getD i pDflt).name ∧
        ((createFallbackDigest [prodA, prodB]).products.getD i
            psDflt).original_tagline = ([prodA, prodB].getD i pDflt).tagline ∧
        ((createFallbackDigest [prodA, prodB]).products.getD i psDflt).url =
          ([prodA, prodB].getD i pDflt).url ∧
        ((createFallbackDigest [prodA, prodB]).products.getD i
            psDflt).image_url = ([prodA, prodB].getD i pDflt).image_url ∧
        ((createFallbackDigest [prodA, prodB]).products.getD i psDflt).topics =
          ([prodA, prodB].getD i pDflt).topics ∧
        ((createFallbackDigest [prodA, prodB]).products.getD i
            psDflt).comments_count =
          ([prodA, prodB].getD i pDflt).comments_count) :=
  ⟨by decide, summarizer_copies_product_fields [prodA, prodB] (Except.ok none)
      (createFallbackDigest [prodA, prodB]) (by decide)⟩

/-- C3 counterexample: with one input product and a model call that raises
with message "boom", `summarize_products` does not return the fallback
digest — the error propagates (the request sits outside the try block) — and
the driver run aborts with exit status 1 instead of continuing. -/
theorem summarizer_request_failure_counterexample :
    summarize_products [prodA] (Except.error "boom") ≠
      Except.ok (createFallbackDigest [prodA]) ∧
    main envRequestFailure = 1 :=
  ⟨by decide, by decide⟩

/-- C3 (amended): for every non-empty input, a failure of the model request
itself propagates out of the Summarizer unchanged (no fallback digest is
built), and the driver catches it and aborts the run with exit status 1; the
deterministic fallback digest is reserved for invalid-JSON response bodies. -/
theorem summarizer_request_failure_propagates (products : List Product)
    (e : String) (hne : products ≠ []) (env : Env) (cfg : Config)
    (hc : env.configResult = Except.ok cfg)
    (hr : (mainRecipients cfg).isEmpty = false)
    (hf : env.fetchResult = Except.ok products)
    (hm : env.modelResult = Except.error e) :
    summarize_products products (Except.error e) = Except.error e ∧
    main env = 1 := by
  have hpe : products.isEmpty = false := by
    cases products with
    | nil => exact absurd rfl hne
    | cons a l => rfl
  have hs : summarize_products products (Except.error e) = Except.error e := by
    simp [summarize_products, hpe]
  refine ⟨hs, ?_⟩
  unfold main
  rw [hc]
  simp only [hr, Bool.false_eq_true, if_false]
  rw [hf]
  simp only [hpe, Bool.false_eq_true, if_false]
  rw [hm, hs]

/-- C3 (amended) witness at the concrete failing environment. -/
theorem summarizer_request_failure_propagates_witness :
    ([prodA] ≠ ([] : List Product)) ∧
    envRequestFailure.configResult = Except.ok cfgEx ∧
    (mainRecipients cfgEx).isEmpty = false ∧
    envRequestFailure.fetchResult = Except.ok [prodA] ∧
    envRequestFailure.modelResult = Except.error "boom" ∧
    (summarize_products [prodA] (Except.error "boom") = Except.error "boom" ∧
      main envRequestFailure = 1) :=
  ⟨by decide, rfl, by decide, rfl, rfl,
    summarizer_request_failure_propagates [prodA] "boom" (by decide)
      envRequestFailure cfgEx rfl (by decide) rfl rfl⟩

/-! ## Mailer claims -/

/-- Default recipient used only to read lists at an in-range index. -/
def rcpDflt : Recipient := { name := "", email := "" }

/-- Default send result used only to read lists at an in-range index. -/
def srDflt : SendResult := SendResult.failed "" ""

/-- Concrete recipients used in witnesses. -/
def rcpAda : Recipient := { name := "Ada", email := "ada@example.com" }

/-- Second concrete recipient used in witnesses. -/
def rcpBen : Recipient := { name := "Ben", email := "ben@example.com" }

/-- A delivery behavior that raises for the first concrete recipient and
succeeds with message id "msg-1" for everyone else. -/
def deliverFailFirst : EmailPayload → Except String (Option String) :=
  fun p =>
    if p.toField = ["ada@example.com"] then Except.error "smtp down"
    else Except.ok (some "msg-1")

/-- A concrete digest used in mailer witnesses. -/
def dgstEx : DigestContent := createFallbackDigest [prodA, prodB]

/-- The i-th send result is obtained from the delivery call for the i-th
payload of the i-th recipient alone. -/
theorem send_digest_getD
    (deliver : EmailPayload → Except String (Option String))
    (htmlOf textOf : DigestContent → String) (digest : DigestContent)
    (from_email subjectPfx today : String) :
    ∀ (recipients : List Recipient) (i : Nat), i < recipients.length →
      (send_digest deliver htmlOf textOf digest recipients from_email
          subjectPfx today).getD i srDflt =
        match deliver (mailPayload from_email (subjectLine subjectPfx today)
            (htmlOf digest) (textOf digest) (recipients.getD i rcpDflt)) with
        | Except.ok id =>
            SendResult.sent (recipients.getD i rcpDflt).email id
        | Except.error e =>
            SendResult.failed (recipients.getD i rcpDflt).email e
  | [], i, hi => absurd hi (by simp)
  | r :: l, 0, _ => rfl
  | r :: l, i + 1, hi =>
    send_digest_getD deliver htmlOf textOf digest from_email subjectPfx today
      l i (by simpa using hi)

/-- C4: for every digest and recipients list, `send_digest` returns exactly
one SendResult per recipient, in recipient order; the i-th result is "sent"
with the provider message id when the delivery call for the i-th recipient
returns, and "failed" with the error message when it raises. The result list
is total whatever the delivery outcomes, so a raise at recipient i neither
suppresses the result for recipient i+1 nor escapes `send_digest`. -/
theorem send_digest_per_recipient
    (deliver : EmailPayload → Except String (Option String))
    (htmlOf textOf : DigestContent → String) (digest : DigestContent)
    (recipients : List Recipient) (from_email subjectPfx today : String) :
    (send_digest deliver htmlOf textOf digest recipients from_email subjectPfx
        today).length = recipients.length ∧
    ∀ i, i < recipients.length →
      ((∃ id,
          deliver (mailPayload from_email (subjectLine subjectPfx today)
            (htmlOf digest) (textOf digest) (recipients.getD i rcpDflt)) =
              Except.ok id ∧
          (send_digest deliver htmlOf textOf digest recipients from_email
              subjectPfx today).getD i srDflt =
            SendResult.sent (recipients.getD i rcpDflt).email id) ∨
        (∃ e,
          deliver (mailPayload from_email (subjectLine subjectPfx today)
            (htmlOf digest) (textOf digest) (recipients.getD i rcpDflt)) =
              Except.error e ∧
          (send_digest deliver htmlOf textOf digest recipients from_email
              subjectPfx today).getD i srDflt =
            SendResult.failed (recipients.getD i rcpDflt).email e)) := by
  constructor
  · simp [send_digest]
  · intro i hi
    cases hdel : deliver (mailPayload from_email (subjectLine subjectPfx today)
        (htmlOf digest) (textOf digest) (recipients.getD i rcpDflt)) with
    | ok id =>
      refine Or.inl ⟨id, rfl, ?_⟩
      have hsd := send_digest_getD deliver htmlOf textOf digest from_email
        subjectPfx today recipients i hi
      rw [hsd, hdel]
    | error e =>
      refine Or.inr ⟨e, rfl, ?_⟩
      have hsd := send_digest_getD deliver htmlOf textOf digest from_email
        subjectPfx today recipients i hi
      rw [hsd, hdel]

/-- C4 witness: two recipients, the delivery call raising for the first and
succeeding for the second. -/
theorem send_digest_per_recipient_witness :
    (send_digest deliverFailFirst (fun _ => "") (fun _ => "") dgstEx
        [rcpAda, rcpBen] "digest@example.com" "🚀 Product Hunt Daily"
        "2024-05-01").length = [rcpAda, rcpBen].length ∧
    ∀ i, i < [rcpAda, rcpBen].length →
      ((∃ id,
          deliverFailFirst (mailPayload "digest@example.com"
            (subjectLine "🚀 Product Hunt Daily" "2024-05-01")
            ((fun _ => "") dgstEx) ((fun _ => "") dgstEx)
            ([rcpAda, rcpBen].getD i rcpDflt)) = Except.ok id ∧
          (send_digest deliverFailFirst (fun _ => "") (fun _ => "") dgstEx
              [rcpAda, rcpBen] "digest@example.com" "🚀 Product Hunt Daily"
              "2024-05-01").getD i srDflt =
            SendResult.sent ([rcpAda, rcpBen].getD i rcpDflt).email id) ∨
        (∃ e,
          deliverFailFirst (mailPayload "digest@example.com"
            (subjectLine "🚀 Product Hunt Daily" "2024-05-01")
            ((fun _ => "") dgstEx) ((fun _ => "") dgstEx)
            ([rcpAda, rcpBen].getD i rcpDflt)) = Except.error e ∧
          (send_digest deliverFailFirst (fun _ => "") (fun _ => "") dgstEx
              [rcpAda, rcpBen] "digest@example.com" "🚀 Product Hunt Daily"
              "2024-05-01").getD i srDflt =
            SendResult.failed ([rcpAda, rcpBen].getD i rcpDflt).email e)) :=
  send_digest_per_recipient deliverFailFirst (fun _ => "") (fun _ => "")
    dgstEx [rcpAda, rcpBen] "digest@example.com" "🚀 Product Hunt Daily"
    "2024-05-01"

/-- C8: the subject passed to every delivery call of `send_digest` is the
configured subject prefix, then " - ", then the YYYY-MM-DD send date (read
off here through a delivery behavior that reports the subject of its
payload);
and at prefix "🚀 Product Hunt Daily" and send date 2024-05-01 the subject
equals "🚀 Product Hunt Daily - 2024-05-01". -/
theorem send_digest_subject (subjectPfx today : String)
    (htmlOf textOf : DigestContent → String) (digest : DigestContent)
    (recipients : List Recipient) (from_email : String) :
    send_digest (fun p => Except.error p.subject) htmlOf textOf digest
        recipients from_email subjectPfx today =
      recipients.map
        (fun r => SendResult.failed r.email (subjectPfx ++ " - " ++ today)) ∧
    subjectLine "🚀 Product Hunt Daily" (formatYMD 2024 5 1) =
      "🚀 Product Hunt Daily - 2024-05-01" :=
  ⟨rfl, by decide⟩

/-! ## Scraper claims -/

/-- The anchor of the first concrete well-formed listing section. -/
def anchorAlpha : Anchor := { text := "Alpha", href := "/posts/alpha" }

/-- The image of the first concrete well-formed listing section. -/
def imgAlpha : Img :=
  { srcset := "https://img.example/alpha.png 1x, https://img.example/alpha2.png 2x"
    src := "https://img.example/alpha-small.png" }

/-- A concrete well-formed listing section. -/
def secGood : ListingSection :=
  { nameSpan := some { link := some anchorAlpha }
    taglineSpan := some "alpha tagline"
    img := some imgAlpha
    topicLinks := ["AI", ""]
    buttonTexts := [none, some "upvote", some "7"] }

/-- The anchor of the second concrete well-formed listing section. -/
def anchorBeta : Anchor := { text := "Beta", href := "https://ext.example/beta" }

/-- A second concrete well-formed listing section, with an absolute href. -/
def secGood2 : ListingSection :=
  { nameSpan := some { link := some anchorBeta }
    taglineSpan := none
    img := none
    topicLinks := []
    buttonTexts := [] }

/-- A listing section with no name span. -/
def secNoName : ListingSection :=
  { nameSpan := none, taglineSpan := some "orphan tagline", img := none,
    topicLinks := [], buttonTexts := [] }

/-- A listing section whose name span contains no anchor. -/
def secNoLink : ListingSection :=
  { nameSpan := some { link := none }, taglineSpan := none, img := none,
    topicLinks := [], buttonTexts := [] }

/-- C5 counterexample: a page with one marker-matching section that lacks a
name element and limit 1 yields 0 products, not min(1, 1) = 1. -/
theorem parse_products_minlength_counterexample :
    (parse_products "https://www.producthunt.com" [secNoName] 1).length ≠
      min 1 [secNoName].length := by decide

/-- C5 (amended): for every limit and page, the parse step walks the first
min(limit, k) marker-matching sections in document order and keeps those
that parse; when each of those sections parses to a product, it returns
exactly min(limit, k) products, the i-th parsed from the i-th section. -/
theorem parse_products_length_min (base_url : String)
    (sections : List ListingSection) (limit : Nat)
    (h : ∀ s ∈ sections.take limit, (parse_product_section base_url s).isSome) :
    (parse_products base_url sections limit).map some =
      (sections.take limit).map (parse_product_section base_url) ∧
    (parse_products base_url sections limit).length =
      min limit sections.length := by
  have hm := filterMap_map_some (parse_product_section base_url)
    (sections.take limit) h
  refine ⟨hm, ?_⟩
  have hlen := congrArg List.length hm
  simp only [List.length_map] at hlen
  unfold parse_products
  rw [hlen, List.length_take]

/-- C5 (amended) witness: two well-formed sections under limit 5 give
min(5, 2) = 2 products. -/
theorem parse_products_length_min_witness :
    (∀ s ∈ [secGood, secGood2].take 5,
      (parse_product_section "https://www.producthunt.com" s).isSome) ∧
    ((parse_products "https://www.producthunt.com" [secGood, secGood2] 5).map
        some =
      ([secGood, secGood2].take 5).map
        (parse_product_section "https://www.producthunt.com") ∧
    (parse_products "https://www.producthunt.com" [secGood, secGood2]
        5).length = min 5 [secGood, secGood2].length) :=
  ⟨by decide, parse_products_length_min "https://www.producthunt.com"
    [secGood, secGood2] 5 (by decide)⟩

/-- C9: a listing section with no name span, or whose name span holds no
anchor, parses to no Product (and raises nothing, every extraction being
total), and the surrounding sections of the page are still parsed: dropping
such a section from the page leaves the parse result unchanged. -/
theorem malformed_section_skipped (base_url : String) (s : ListingSection)
    (pre post : List ListingSection) (limit : Nat)
    (hbad : s.nameSpan = none ∨ ∃ ns, s.nameSpan = some ns ∧ ns.link = none)
    (hlim : pre.length + 1 + post.length ≤ limit) :
    parse_product_section base_url s = none ∧
    parse_products base_url (pre ++ s :: post) limit =
      parse_products base_url pre pre.length ++
        parse_products base_url post post.length := by
  have hs : parse_product_section base_url s = none := by
    rcases hbad with h | ⟨ns, hns, hl⟩
    · simp [parse_product_section, h]
    · simp [parse_product_section, hns, hl]
  refine ⟨hs, ?_⟩
  unfold parse_products
  rw [List.take_of_length_le (by simp; omega), List.take_length,
    List.take_length]
  simp [List.filterMap_append, List.filterMap_cons, hs]

/-- C9 witness: an anchor-less section between two well-formed ones is
skipped while both neighbors still parse. -/
theorem malformed_section_skipped_witness :
    (secNoLink.nameSpan = none ∨
      ∃ ns, secNoLink.nameSpan = some ns ∧ ns.link = none) ∧
    ([secGood].length + 1 + [secGood2].length ≤ 3) ∧
    (parse_product_section "https://www.producthunt.com" secNoLink = none ∧
      parse_products "https://www.producthunt.com"
          ([secGood] ++ secNoLink :: [secGood2]) 3 =
        parse_products "https://www.producthunt.com" [secGood]
            [secGood].length ++
          parse_products "https://www.producthunt.com" [secGood2]
            [secGood2].length) :=
  ⟨Or.inr ⟨{ link := none }, rfl, rfl⟩, by decide,
    malformed_section_skipped "https://www.producthunt.com" secNoLink
      [secGood] [secGood2] 3 (Or.inr ⟨{ link := none }, rfl, rfl⟩)
      (by decide)⟩

/-! ## Driver claim -/

/-- A failed config load makes `main` return 1. -/
theorem main_eq_one_config_error (env : Env) (e : String)
    (hc : env.configResult = Except.error e) : main env = 1 := by
  unfold main
  rw [hc]

/-- An empty parsed-recipients list makes `main` return 1. -/
theorem main_eq_one_no_recipients (env : Env) (cfg : Config)
    (hc : env.configResult = Except.ok cfg)
    (hre : (mainRecipients cfg).isEmpty = true) : main env = 1 := by
  unfold main
  rw [hc]
  simp [hre]

/-- A failed fetch makes `main` return 1. -/
theorem main_eq_one_fetch_error (env : Env) (cfg : Config) (e : String)
    (hc : env.configResult = Except.ok cfg)
    (hre : (mainRecipients cfg).isEmpty = false)
    (hf : env.fetchResult = Except.error e) : main env = 1 := by
  unfold main
  rw [hc]
  simp only [hre, Bool.false_eq_true, if_false]
  rw [hf]

/-- An empty fetched product list makes `main` return 0. -/
theorem main_eq_zero_empty_fetch (env : Env) (cfg : Config)
    (hc : env.configResult = Except.ok cfg)
    (hre : (mainRecipients cfg).isEmpty = false)
    (hf : env.fetchResult = Except.ok []) : main env = 0 := by
  unfold main
  rw [hc]
  simp only [hre, Bool.false_eq_true, if_false]
  rw [hf]
  rfl

/-- A summarize stage error makes `main` return 1. -/
theorem main_eq_one_sum_error (env : Env) (cfg : Config)
    (products : List Product) (e : String)
    (hc : env.configResult = Except.ok cfg)
    (hre : (mainRecipients cfg).isEmpty = false)
    (hf : env.fetchResult = Except.ok products)
    (hne : products.isEmpty = false)
    (hsum : summarize_products products env.modelResult = Except.error e) :
    main env = 1 := by
  unfold main
  rw [hc]
  simp only [hre, Bool.false_eq_true, if_false]
  rw [hf]
  simp only [hne, Bool.false_eq_true, if_false]
  rw [hsum]

/-- A failed mailer construction (missing provider key) makes `main`
return 1. -/
theorem main_eq_one_mailer_error (env : Env) (cfg : Config)
    (products : List Product) (digest : DigestContent) (e : String)
    (hc : env.configResult = Except.ok cfg)
    (hre : (mainRecipients cfg).isEmpty = false)
    (hf : env.fetchResult = Except.ok products)
    (hne : products.isEmpty = false)
    (hsum : summarize_products products env.modelResult = Except.ok digest)
    (hmi : env.mailerInit = Except.error e) : main env = 1 := by
  unfold main
  rw [hc]
  simp only [hre, Bool.false_eq_true, if_false]
  rw [hf]
  simp only [hne, Bool.false_eq_true, if_false]
  rw [hsum, hmi]

/-- On the full success path `main` reduces to the `failed == 0` test over
the send results. -/
theorem main_eq_failed_test (env : Env) (cfg : Config)
    (products : List Product) (digest : DigestContent)
    (hc : env.configResult = Except.ok cfg)
    (hre : (mainRecipients cfg).isEmpty = false)
    (hf : env.fetchResult = Except.ok products)
    (hne : products.isEmpty = false)
    (hsum : summarize_products products env.modelResult = Except.ok digest)
    (hmi : env.mailerInit = Except.ok ()) :
    main env =
      if (mainResults env cfg digest).length -
          ((mainResults env cfg digest).filter SendResult.isSent).length = 0
      then 0 else 1 := by
  unfold main
  rw [hc]
  simp only [hre, Bool.false_eq_true, if_false]
  rw [hf]
  simp only [hne, Bool.false_eq_true, if_false]
  rw [hsum, hmi]

/-- C2: the exit status of the driver is 0 only when every recipient send
succeeded (or the fetch legitimately returned no products); it is 1 whenever
the configuration load fails, no recipient is configured, the fetch fails,
the summarize stage raises, the mailer cannot be constructed, or at least
one recipient send failed; and an empty fetch result exits 0 whatever the
Summarizer and Mailer would do, since neither is invoked. -/
theorem main_exit_status (env : Env) :
    (main env = 0 →
      ∃ cfg, env.configResult = Except.ok cfg ∧
        ∃ products, env.fetchResult = Except.ok products ∧
          (products = [] ∨
            ∃ digest,
              summarize_products products env.modelResult =
                Except.ok digest ∧
              ∀ res ∈ mainResults env cfg digest, res.isSent = true)) ∧
    (∀ e, env.configResult = Except.error e → main env = 1) ∧
    (∀ cfg, env.configResult = Except.ok cfg →
      ((mainRecipients cfg).isEmpty = true → main env = 1) ∧
      ((mainRecipients cfg).isEmpty = false →
        (∀ e, env.fetchResult = Except.error e → main env = 1) ∧
        (∀ products, env.fetchResult = Except.ok products →
          (products = [] →
            ∀ mr mi d hof tof,
              main { env with
                modelResult := mr
                mailerInit := mi
                deliver := d
                htmlOf := hof
                textOf := tof } = 0) ∧
          (products ≠ [] →
            (∀ e,
              summarize_products products env.modelResult = Except.error e →
                main env = 1) ∧
            (∀ digest,
              summarize_products products env.modelResult =
                  Except.ok digest →
              (∀ e, env.mailerInit = Except.error e → main env = 1) ∧
              (env.mailerInit = Except.ok () →
                (main env = 0 ↔
                  ∀ res ∈ mainResults env cfg digest, res.isSent = true) ∧
                ((∃ res ∈ mainResults env cfg digest,
                    res.isSent = false) → main env = 1))))))) := by
  refine ⟨?_, ?_, ?_⟩
  · -- main = 0 forces a fully successful (or empty-fetch) run
    intro h0
    cases hc : env.configResult with
    | error e => exact absurd h0 (by rw [main_eq_one_config_error env e hc]; omega)
    | ok cfg =>
      refine ⟨cfg, rfl, ?_⟩
      cases hre : (mainRecipients cfg).isEmpty with
      | true => exact absurd h0 (by rw [main_eq_one_no_recipients env cfg hc hre]; omega)
      | false =>
        cases hf : env.fetchResult with
        | error e => exact absurd h0 (by rw [main_eq_one_fetch_error env cfg e hc hre hf]; omega)
        | ok products =>
          refine ⟨products, rfl, ?_⟩
          by_cases hpe : products = []
          · exact Or.inl hpe
          · have hne : products.isEmpty = false := by
              cases products with
              | nil => exact absurd rfl hpe
              | cons a l => rfl
            right
            cases hsum : summarize_products products env.modelResult with
            | error e =>
              exact absurd h0
                (by rw [main_eq_one_sum_error env cfg products e hc hre hf hne hsum]; omega)
            | ok digest =>
              refine ⟨digest, rfl, ?_⟩
              cases hmi : env.mailerInit with
              | error e =>
                exact absurd h0 (by
                  rw [main_eq_one_mailer_error env cfg products digest e hc
                    hre hf hne hsum hmi]
                  omega)
              | ok u =>
                rw [main_eq_failed_test env cfg products digest hc hre hf hne
                  hsum hmi] at h0
                by_cases hz : (mainResults env cfg digest).length -
                    ((mainResults env cfg digest).filter
                      SendResult.isSent).length = 0
                · exact (failed_zero_iff (mainResults env cfg digest)).mp hz
                · rw [if_neg hz] at h0
                  omega
  · intro e hc
    exact main_eq_one_config_error env e hc
  · intro cfg hc
    refine ⟨fun hre => main_eq_one_no_recipients env cfg hc hre, fun hre => ?_⟩
    refine ⟨fun e hf => main_eq_one_fetch_error env cfg e hc hre hf, ?_⟩
    intro products hf
    constructor
    · intro hpe mr mi d hof tof
      subst hpe
      exact main_eq_zero_empty_fetch _ cfg hc hre hf
    · intro hpe
      have hne : products.isEmpty = false := by
        cases products with
        | nil => exact absurd rfl hpe
        | cons a l => rfl
      refine ⟨fun e hsum => main_eq_one_sum_error env cfg products e hc hre hf hne hsum, ?_⟩
      intro digest hsum
      refine ⟨fun e hmi =>
        main_eq_one_mailer_error env cfg products digest e hc hre hf hne hsum hmi,
        fun hmi => ?_⟩
      have hmain := main_eq_failed_test env cfg products digest hc hre hf hne
        hsum hmi
      constructor
      · rw [hmain]
        by_cases hz : (mainResults env cfg digest).length -
            ((mainResults env cfg digest).filter SendResult.isSent).length = 0
        · rw [if_pos hz]
          exact ⟨fun _ => (failed_zero_iff (mainResults env cfg digest)).mp hz,
            fun _ => rfl⟩
        · rw [if_neg hz]
          constructor
          · intro h; omega
          · intro hall
            exact absurd ((failed_zero_iff (mainResults env cfg digest)).mpr hall) hz
      · rintro ⟨res, hmem, hfail⟩
        rw [hmain]
        by_cases hz : (mainResults env cfg digest).length -
            ((mainResults env cfg digest).filter SendResult.isSent).length = 0
        · have := (failed_zero_iff (mainResults env cfg digest)).mp hz res hmem
          rw [this] at hfail
          exact absurd hfail (by simp)
        · rw [if_neg hz]

/-- Driver environment whose configuration file is missing. -/
def envConfigError : Env :=
  { configResult := Except.error "Configuration file not found: config.yaml"
    fetchResult := Except.ok []
    modelResult := Except.ok none
    mailerInit := Except.ok ()
    deliver := fun _ => Except.ok (some "msg-1")
    htmlOf := fun _ => ""
    textOf := fun _ => ""
    today := "2024-05-01" }

/-- Driver environment whose fetch succeeds with no products. -/
def envEmptyFetch : Env :=
  { configResult := Except.ok cfgEx
    fetchResult := Except.ok []
    modelResult := Except.error "never reached"
    mailerInit := Except.error "never reached"
    deliver := fun _ => Except.error "never reached"
    htmlOf := fun _ => ""
    textOf := fun _ => ""
    today := "2024-05-01" }

/-- Driver environment that reaches the send stage (the model response is
unparsable, so the fallback digest is mailed) and in which delivery fails for
the first of the two recipients. -/
def envMixed : Env :=
  { configResult := Except.ok cfgEx
    fetchResult := Except.ok [prodA]
    modelResult := Except.ok none
    mailerInit := Except.ok ()
    deliver := deliverFailFirst
    htmlOf := fun _ => ""
    textOf := fun _ => ""
    today := "2024-05-01" }

/-- C2 witness: a missing configuration exits 1; an empty fetch exits 0; a
run in which one of two recipient sends fails exits 1. -/
theorem main_exit_status_witness :
    main envConfigError = 1 ∧ main envEmptyFetch = 0 ∧ main envMixed = 1 := by
  refine ⟨?_, ?_, ?_⟩
  · exact (main_exit_status envConfigError).2.1
      "Configuration file not found: config.yaml" rfl
  · exact ((((main_exit_status envEmptyFetch).2.2 cfgEx rfl).2
      (by decide)).2 [] rfl).1 rfl envEmptyFetch.modelResult
      envEmptyFetch.mailerInit envEmptyFetch.deliver envEmptyFetch.htmlOf
      envEmptyFetch.textOf
  · exact ((((((((main_exit_status envMixed).2.2 cfgEx rfl).2
      (by decide)).2 [prodA] rfl).2 (by decide)).2
      (createFallbackDigest [prodA]) (by decide)).2 rfl).2)
      ⟨SendResult.failed "ada@example.com" "smtp down", by decide, by decide⟩

end PH
